import Mathlib

/-
Verification development for the BIP-SW-AI recreational-islands repository.

The repository consists of three near-duplicate Python scripts
(`recreational_islands.py`, `islands2.py`, `showislands.py`) that resolve a
fixed catalog of place names to coordinates through the Nominatim geocoding
service and render the resolved places as markers on a map.

The embedding below translates the pure data flow of those scripts into Lean:
  * coordinates are modelled as exact rationals (the Python scripts use
    `float`; every concrete value appearing in the claims is exactly
    representable and the arithmetic in question — sums and halving —
    is exact in both models at those values);
  * the external HTTP service is modelled as an oracle
    `String → Option Match` giving, per query string, either a match
    (a record carrying `lat`/`lon`, per the service interface every match
    object carries both fields) or no match / a failed request;
  * side effects (network calls, sleeps, file writes) are modelled as
    explicit event lists / result values.
-/

set_option autoImplicit false

/-- One match object of the geocoding service response: per the external
interface every match carries at least `lat` and `lon`. -/
structure Match where
  lat : ℚ
  lon : ℚ
deriving DecidableEq, Repr

/-- Python truthiness of an optional float as used by the scripts
(`if island.latitude and island.longitude`, `if lat and lon`):
`None` is falsy and `0.0` is falsy. -/
def truthy : Option ℚ → Bool
  | none => false
  | some x => x != 0

namespace RecIslands

/-- `Island.__init__` data of `recreational_islands.py`: name, city, notes,
and the two optional coordinate fields, both initialised to `None`. -/
structure Island where
  name : String
  city : String
  notes : String
  latitude : Option ℚ
  longitude : Option ℚ
deriving DecidableEq, Repr

/-- `Island.__init__`: a freshly constructed island has both coordinate
fields absent. -/
def mkIsland (name city notes : String) : Island :=
  ⟨name, city, notes, none, none⟩

/-- Outcome of the HTTP round trip performed by `NominatimGeocoder.geocode`:
the transport may fail (connection error or the 10-second timeout), the
response may carry an error status (on which `raise_for_status` raises
inside the guarded block), or an ok response arrives whose JSON body either
fails to parse (`none`) or parses to the (possibly empty) result list. -/
inductive HttpOutcome where
  | transportError
  | badStatus
  | okResponse (body : Option (List Match))
deriving DecidableEq, Repr

/-- `NominatimGeocoder.geocode` of `recreational_islands.py`: all request
failures (transport error, timeout, error status via `raise_for_status`,
malformed JSON body — each a `requests.RequestException`) are caught and
yield `None`; an empty result list yields `None`; otherwise the first
result is returned. -/
def geocode : HttpOutcome → Option Match
  | HttpOutcome.transportError => none
  | HttpOutcome.badStatus => none
  | HttpOutcome.okResponse none => none
  | HttpOutcome.okResponse (some []) => none
  | HttpOutcome.okResponse (some (m :: _)) => some m

/-- The ordered query-variant list built by
`NominatimGeocoder.find_coordinates`, most specific first. -/
def queries (island : Island) : List String :=
  [island.name ++ ", " ++ island.city ++ ", Finland",
   island.name ++ ", " ++ island.city,
   island.name ++ " Finland"]

/-- `find_coordinates` writing both coordinate fields of the island from a
match (`island.latitude = float(result['lat'])`,
`island.longitude = float(result['lon'])`). -/
def setCoords (island : Island) (m : Match) : Island :=
  { island with latitude := some m.lat, longitude := some m.lon }

/-- Result of one `find_coordinates` call: the returned Bool, the island
state after the call, and the list of query strings actually sent to the
service, in order. -/
structure ResolveOutcome where
  found : Bool
  island : Island
  attempted : List String
deriving DecidableEq, Repr

/-- The variant loop of `NominatimGeocoder.find_coordinates`: for each query
in order, issue the lookup; on a (truthy) result set both coordinates and
return `True` immediately; otherwise sleep and continue; after the last
variant return `False`. `g` is the oracle for `self.geocode`. -/
def tryQueries (g : String → Option Match) (island : Island) :
    List String → ResolveOutcome
  | [] => ⟨false, island, []⟩
  | q :: rest =>
    match g q with
    | some m => ⟨true, setCoords island m, [q]⟩
    | none =>
      let r := tryQueries g island rest
      ⟨r.found, r.island, q :: r.attempted⟩

/-- `NominatimGeocoder.find_coordinates`: run the variant loop on the
island's query-variant list. -/
def findCoordinates (g : String → Option Match) (island : Island) :
    ResolveOutcome :=
  tryQueries g island (queries island)

/-- The per-island resolution loop of `main`: each island is processed by
`find_coordinates`, mutating it in place; the list keeps its order and
length. -/
def resolveAll (g : String → Option Match) (islands : List Island) :
    List Island :=
  islands.map (fun i => (findCoordinates g i).island)

/-- Externally visible timed events of a run: an external service call
(carrying its query string) or a `time.sleep` of the given number of
seconds. -/
inductive Event where
  | call (q : String)
  | sleep (seconds : ℕ)
deriving DecidableEq, Repr

/-- Event trace of the variant loop of `find_coordinates`: each variant
issues a call; a successful call returns immediately (no sleep); a failed
attempt is followed by `time.sleep(1)` before the next variant. -/
def tryQueriesTrace (g : String → Option Match) : List String → List Event
  | [] => []
  | q :: rest =>
    match g q with
    | some _ => [Event.call q]
    | none => Event.call q :: Event.sleep 1 :: tryQueriesTrace g rest

/-- Event trace of a whole run of `main`: the concatenation of the
per-island traces of `find_coordinates`, in catalog order. -/
def runTrace (g : String → Option Match) (islands : List Island) :
    List Event :=
  (islands.map (fun i => tryQueriesTrace g (queries i))).flatten

/-- A trace respects the one-second pacing iff no two external calls are
adjacent: every pair of successive calls has at least one sleep (of the
one-second interval) between them. -/
def properlySpaced : List Event → Bool
  | Event.call _ :: Event.call _ :: _ => false
  | _ :: rest => properlySpaced rest
  | [] => true

/-- The filter of `create_map`: keep the islands whose latitude and
longitude are both truthy
(`[island for island in islands if island.latitude and island.longitude]`). -/
def resolvedIslands (islands : List Island) : List Island :=
  islands.filter (fun i => truthy i.latitude && truthy i.longitude)

/-- The six digits after the decimal point of the Python format `:.6f`
applied to the scaled absolute value `n` (most significant first). -/
def frac6 (n : ℕ) : String :=
  String.mk [Nat.digitChar (n / 100000 % 10), Nat.digitChar (n / 10000 % 10),
    Nat.digitChar (n / 1000 % 10), Nat.digitChar (n / 100 % 10),
    Nat.digitChar (n / 10 % 10), Nat.digitChar (n % 10)]

/-- Python fixed-point formatting `f\x7bx:.6f\x7d` on the exact value:
round to six decimal places and print sign, integer part, a dot, and
exactly six fraction digits. -/
def fmt6 (x : ℚ) : String :=
  let n : ℤ := round (x * 1000000)
  (if n < 0 then "-" else "")
    ++ toString (n.natAbs / 1000000) ++ "." ++ frac6 (n.natAbs % 1000000)

/-- Popup template text before the island name. -/
def popupT1 : String :=
  "\n        <div style=\"font-family: Arial; width: 200px;\">\n            <h4 style=\"margin: 0 0 10px 0; color: #2c3e50;\">"

/-- Popup template text between the name and the city. -/
def popupT2 : String :=
  "</h4>\n            <p style=\"margin: 5px 0;\"><b>City:</b> "

/-- Popup template text between the city and the notes. -/
def popupT3 : String :=
  "</p>\n            <p style=\"margin: 5px 0;\"><b>Notes:</b> "

/-- Popup template text between the notes and the coordinates. -/
def popupT4 : String :=
  "</p>\n            <p style=\"margin: 5px 0; font-size: 0.9em; color: #666;\">\n                <b>Coordinates:</b><br>\n                "

/-- Popup template text after the coordinates. -/
def popupT5 : String := "\n            </p>\n        </div>\n        "

/-- The popup HTML of `create_map`, with the island's name, city, notes
and its coordinates formatted to six decimal places interpolated into the
template. -/
def popupHtml (name city notes : String) (la lo : ℚ) : String :=
  popupT1 ++ name ++ popupT2 ++ city ++ popupT3 ++ notes ++ popupT4
    ++ fmt6 la ++ ", " ++ fmt6 lo ++ popupT5

/-- One `folium.Marker` of `create_map`: location, tooltip (the display
label, `tooltip=island.name`) and popup HTML. -/
structure Marker where
  lat : ℚ
  lon : ℚ
  tooltip : String
  popup : String
deriving DecidableEq, Repr

/-- The marker `create_map` constructs for one island that passed the
coordinate filter. -/
def mkMarker (i : Island) : Marker :=
  ⟨i.latitude.getD 0, i.longitude.getD 0, i.name,
    popupHtml i.name i.city i.notes (i.latitude.getD 0) (i.longitude.getD 0)⟩

/-- The map artifact written by `create_map`: the center passed to
`folium.Map` and the ordered marker list, together with the output file
name it is saved under. -/
structure MapArtifact where
  center : ℚ × ℚ
  markers : List Marker
  outputFile : String
deriving DecidableEq, Repr

/-- `create_map` of `recreational_islands.py`: filter the catalog to the
islands with truthy coordinates; if none remain, return without producing
anything; otherwise center the map on the arithmetic mean of the
latitudes and of the longitudes of the filtered islands, add one marker
per filtered island in order, and save to the output file. -/
def createMap (islands : List Island) (outputFile : String) :
    Option MapArtifact :=
  let withCoords := resolvedIslands islands
  if withCoords.isEmpty then none
  else
    some
      ⟨((withCoords.map (fun i => i.latitude.getD 0)).sum / (withCoords.length : ℚ),
        (withCoords.map (fun i => i.longitude.getD 0)).sum / (withCoords.length : ℚ)),
       withCoords.map mkMarker,
       outputFile⟩

/-- The file-write side effects of `create_map`: `map_obj.save(output_file)`
runs only after the empty-filter guard, so a file is written exactly when
an artifact is produced. -/
def filesWritten (islands : List Island) (outputFile : String) :
    List String :=
  match createMap islands outputFile with
  | none => []
  | some _ => [outputFile]

/-- The coordinate-pair invariant of the data model: both fields present or
both absent. -/
def pairInv (i : Island) : Prop :=
  i.latitude.isSome = i.longitude.isSome

end RecIslands

namespace Islands2

/-- One entry of the island catalog of `islands2.py`:
a dict with name, city and notes. -/
structure IslandRec where
  name : String
  city : String
  notes : String
deriving DecidableEq, Repr

/-- The single query string `islands2.py` builds per island. -/
def query (i : IslandRec) : String :=
  i.name ++ ", " ++ i.city

/-- `get_coordinates` of `islands2.py`: one lookup for the query; on a
match return the pair of parsed floats, on no match or any exception
return `(None, None)`. `g` abstracts the request plus JSON parsing. -/
def get_coordinates (g : String → Option Match) (name city : String) :
    Option ℚ × Option ℚ :=
  match g (name ++ ", " ++ city) with
  | some m => (some m.lat, some m.lon)
  | none => (none, none)

/-- One resolved entry of the `coordinates` list of `islands2.py`: the
island dict extended with its `lat` and `lon`. -/
structure ResolvedRec where
  island : IslandRec
  lat : ℚ
  lon : ℚ
deriving DecidableEq, Repr

/-- The module-level resolution loop of `islands2.py`: for each island call
`get_coordinates`; append the island with its coordinates only when both
`lat` and `lon` are truthy (`if lat and lon:`), otherwise report it as not
found and keep going. -/
def resolutionLoop (g : String → Option Match) :
    List IslandRec → List ResolvedRec
  | [] => []
  | i :: rest =>
    let c := get_coordinates g i.name i.city
    if truthy c.1 && truthy c.2 then
      ⟨i, (c.1).getD 0, (c.2).getD 0⟩ :: resolutionLoop g rest
    else
      resolutionLoop g rest

end Islands2

/-! Concrete fixtures used to instantiate the theorems below: small
catalogs and mocked service behaviours. -/

/-- A fresh catalog entry "A, X" (coordinates absent). -/
def islandA : RecIslands.Island := RecIslands.mkIsland "A" "X" "a note"

/-- A fresh catalog entry "B, Y" (coordinates absent). -/
def islandB : RecIslands.Island := RecIslands.mkIsland "B" "Y" "b note"

/-- Mocked service: only the second query variant of `islandA` matches. -/
def gSecond : String → Option Match :=
  fun q => if q = "A, X" then some ⟨60, 25⟩ else none

/-- Mocked service: no query ever matches. -/
def gNone : String → Option Match := fun _ => none

/-- Mocked service: only the first query variant of `islandA` matches. -/
def gFirst : String → Option Match :=
  fun q => if q = "A, X, Finland" then some ⟨61, 24⟩ else none

/-- Mocked service: every query matches with latitude exactly 0. -/
def gZero : String → Option Match := fun _ => some ⟨0, 25⟩

/-- An island whose resolution produced latitude exactly 0. -/
def islandZeroLat : RecIslands.Island := ⟨"A", "X", "a note", some 0, some 25⟩

/-- An island resolved to ordinary nonzero coordinates. -/
def islandResolved : RecIslands.Island := ⟨"B", "Y", "b note", some 60, some 25⟩

/-- An island resolved to (60.0, 25.0). -/
def islandD1 : RecIslands.Island := ⟨"Kaunissaari", "Sipoo", "n1", some 60, some 25⟩

/-- An island resolved to (60.2, 25.4). -/
def islandD2 : RecIslands.Island := ⟨"Pirttisaari", "Porvoo", "n2", some 60.2, some 25.4⟩

/-- The artifact `create_map` produces for the catalog holding the
unresolved `islandA` and the resolved `islandResolved`. -/
def mapArtAB : RecIslands.MapArtifact :=
  (RecIslands.createMap [islandA, islandResolved] "islands_map.html").getD
    ⟨(0, 0), [], ""⟩

/-- A catalog entry of `islands2.py`. -/
def i2A : Islands2.IslandRec := ⟨"A", "X", "a note"⟩

/-- A second catalog entry of `islands2.py`. -/
def i2B : Islands2.IslandRec := ⟨"B", "Y", "b note"⟩

/-! Helper lemmas about the variant loop. -/

/-- If every query in the list fails, the variant loop returns `False`,
leaves the island untouched, and has attempted every query. -/
theorem tryQueries_all_none (g : String → Option Match)
    (isl : RecIslands.Island) (vs : List String) (h : ∀ q ∈ vs, g q = none) :
    RecIslands.tryQueries g isl vs = ⟨false, isl, vs⟩ := by
  induction vs with
  | nil => rfl
  | cons q rest ih =>
    have hq : g q = none := h q (List.mem_cons_self _ _)
    simp [RecIslands.tryQueries, hq,
      ih fun r hr => h r (List.mem_cons_of_mem _ hr)]

/-- If every query before `q` fails and `q` matches `m`, the variant loop
returns `True` with the island's coordinates set from `m`, having
attempted exactly the queries up to and including `q`. -/
theorem tryQueries_first_match (g : String → Option Match)
    (isl : RecIslands.Island) (m : Match) (pre : List String) (q : String)
    (post : List String) (hpre : ∀ r ∈ pre, g r = none)
    (hq : g q = some m) :
    RecIslands.tryQueries g isl (pre ++ q :: post) =
      ⟨true, RecIslands.setCoords isl m, pre ++ [q]⟩ := by
  induction pre with
  | nil => simp [RecIslands.tryQueries, hq]
  | cons r pre ih =>
    have hr : g r = none := hpre r (List.mem_cons_self _ _)
    simp [RecIslands.tryQueries, hr,
      ih fun s hs => hpre s (List.mem_cons_of_mem _ hs)]

/-- C1: for every place and every mocked service behaviour in which at
least one query variant matches, `find_coordinates` tries the ordered
variant list and returns with the coordinates of the first matching
variant set on the island, attempting exactly the variants up to and
including that first match — no lookup is issued for any later variant. -/
theorem findCoordinates_first_success (g : String → Option Match)
    (island : RecIslands.Island) (m : Match) (pre post : List String)
    (q : String) (hsplit : RecIslands.queries island = pre ++ q :: post)
    (hpre : ∀ r ∈ pre, g r = none) (hq : g q = some m) :
    RecIslands.findCoordinates g island =
      ⟨true, RecIslands.setCoords island m, pre ++ [q]⟩ := by
  rw [RecIslands.findCoordinates, hsplit]
  exact tryQueries_first_match g island m pre q post hpre hq

/-- Witness for C1: with a mock matching only the second variant of
`islandA`, resolution succeeds with that variant's coordinates, after
attempting exactly the first two variants. -/
theorem findCoordinates_first_success_witness :
    RecIslands.findCoordinates gSecond islandA =
      ⟨true, RecIslands.setCoords islandA ⟨60, 25⟩,
        ["A, X, Finland", "A, X"]⟩ :=
  findCoordinates_first_success gSecond islandA ⟨60, 25⟩
    ["A, X, Finland"] ["A Finland"] "A, X" (by decide)
    (by intro r hr; simp only [List.mem_singleton] at hr; subst hr; decide)
    (by decide)

/-- C2: for every place all of whose query variants fail,
`find_coordinates` returns `False`, and after the whole resolution pass
over the catalog that place is unchanged at its position, with latitude
and longitude still absent. -/
theorem resolve_all_not_found (g : String → Option Match)
    (island : RecIslands.Island) (islands : List RecIslands.Island) (k : ℕ)
    (hmem : islands[k]? = some island)
    (hlat : island.latitude = none) (hlon : island.longitude = none)
    (hfail : ∀ q ∈ RecIslands.queries island, g q = none) :
    (RecIslands.findCoordinates g island).found = false
    ∧ (RecIslands.resolveAll g islands)[k]? = some island
    ∧ island.latitude = none ∧ island.longitude = none := by
  have h1 : RecIslands.findCoordinates g island =
      ⟨false, island, RecIslands.queries island⟩ :=
    tryQueries_all_none g island _ hfail
  refine ⟨by rw [h1], ?_, hlat, hlon⟩
  rw [RecIslands.resolveAll, List.getElem?_map, hmem]
  simp [h1]

/-- Witness for C2: a mock that never matches leaves `islandA` unresolved
after the resolution pass. -/
theorem resolve_all_not_found_witness :
    (RecIslands.findCoordinates gNone islandA).found = false
    ∧ (RecIslands.resolveAll gNone [islandA])[0]? = some islandA
    ∧ islandA.latitude = none ∧ islandA.longitude = none :=
  resolve_all_not_found gNone islandA [islandA] 0 rfl rfl rfl
    (fun _ _ => rfl)

/-- C6: every request failure (transport error, bad status, malformed
body) and every empty result set makes `geocode` return `None` rather
than raising; no lookup failure shortens the resolution pass — the
catalog loop still processes every place, and a place whose lookups all
fail still attempts its full variant list. -/
theorem geocode_never_fatal :
    (∀ o : RecIslands.HttpOutcome,
        (∀ (m : Match) (ms : List Match),
          o ≠ RecIslands.HttpOutcome.okResponse (some (m :: ms))) →
        RecIslands.geocode o = none)
    ∧ (∀ (g : String → Option Match) (islands : List RecIslands.Island),
        (RecIslands.resolveAll g islands).length = islands.length)
    ∧ (∀ (g : String → Option Match) (island : RecIslands.Island),
        (∀ q ∈ RecIslands.queries island, g q = none) →
        (RecIslands.findCoordinates g island).attempted =
          RecIslands.queries island) := by
  refine ⟨?_, ?_, ?_⟩
  · intro o h
    match o with
    | RecIslands.HttpOutcome.transportError => rfl
    | RecIslands.HttpOutcome.badStatus => rfl
    | RecIslands.HttpOutcome.okResponse none => rfl
    | RecIslands.HttpOutcome.okResponse (some []) => rfl
    | RecIslands.HttpOutcome.okResponse (some (m :: ms)) =>
        exact absurd rfl (h m ms)
  · intro g islands
    simp [RecIslands.resolveAll]
  · intro g island hfail
    have h1 := tryQueries_all_none g island (RecIslands.queries island) hfail
    simp [RecIslands.findCoordinates, h1]

/-- Witness for C6: a transport error yields `None`; a never-matching mock
still processes both catalog entries and all three variants of the
first. -/
theorem geocode_never_fatal_witness :
    RecIslands.geocode RecIslands.HttpOutcome.transportError = none
    ∧ (RecIslands.resolveAll gNone [islandA, islandB]).length = 2
    ∧ (RecIslands.findCoordinates gNone islandA).attempted =
        RecIslands.queries islandA :=
  ⟨geocode_never_fatal.1 RecIslands.HttpOutcome.transportError
      (fun _ _ h => RecIslands.HttpOutcome.noConfusion h),
   geocode_never_fatal.2.1 gNone [islandA, islandB],
   geocode_never_fatal.2.2 gNone islandA (fun _ _ => rfl)⟩

/-- C3 (violation): in `recreational_islands.py` the `time.sleep(1)` runs
only after a FAILED variant; a successful lookup returns immediately, so
the next place's first request follows a successful request with no sleep
in between. With a mock resolving `islandA`'s first variant, the run
trace opens with two adjacent external calls, violating the one-second
spacing the claim (and the code's own rate-limit comment) requires. -/
theorem run_trace_adjacent_calls :
    RecIslands.runTrace gFirst [islandA, islandB] =
      [RecIslands.Event.call "A, X, Finland",
       RecIslands.Event.call "B, Y, Finland", RecIslands.Event.sleep 1,
       RecIslands.Event.call "B, Y", RecIslands.Event.sleep 1,
       RecIslands.Event.call "B Finland", RecIslands.Event.sleep 1]
    ∧ RecIslands.properlySpaced
        (RecIslands.runTrace gFirst [islandA, islandB]) = false := by
  decide

/-- The variant loop preserves the coordinate-pair invariant: it either
leaves the island untouched or sets both coordinates at once. -/
theorem pairInv_tryQueries (g : String → Option Match)
    (isl : RecIslands.Island) (vs : List String)
    (h : RecIslands.pairInv isl) :
    RecIslands.pairInv (RecIslands.tryQueries g isl vs).island := by
  induction vs with
  | nil => exact h
  | cons q rest ih =>
    cases hq : g q with
    | some m =>
        simp [RecIslands.tryQueries, hq, RecIslands.setCoords,
          RecIslands.pairInv]
    | none =>
        simpa [RecIslands.tryQueries, hq] using ih

/-- C9: every freshly constructed island has both coordinate fields
absent, and the resolution pass preserves the pair invariant: afterwards
every island still has both coordinates present or both absent — never
exactly one. -/
theorem coordinate_pair_invariant (g : String → Option Match)
    (islands : List RecIslands.Island)
    (hinit : ∀ i ∈ islands, RecIslands.pairInv i) :
    (∀ name city notes,
        RecIslands.pairInv (RecIslands.mkIsland name city notes))
    ∧ ∀ i ∈ RecIslands.resolveAll g islands, RecIslands.pairInv i := by
  refine ⟨fun _ _ _ => rfl, ?_⟩
  intro i hi
  rw [RecIslands.resolveAll] at hi
  obtain ⟨j, hj, rfl⟩ := List.mem_map.mp hi
  exact pairInv_tryQueries g j _ (hinit j hj)

/-- Witness for C9: the invariant holds across a concrete resolution pass
in which one island resolves and one does not. -/
theorem coordinate_pair_invariant_witness :
    (∀ name city notes,
        RecIslands.pairInv (RecIslands.mkIsland name city notes))
    ∧ ∀ i ∈ RecIslands.resolveAll gSecond [islandA, islandB],
        RecIslands.pairInv i :=
  coordinate_pair_invariant gSecond [islandA, islandB]
    (by intro i hi; fin_cases hi <;> rfl)

/-- Truthiness of an optional coordinate amounts to being present and
nonzero. -/
theorem truthy_eq_true (o : Option ℚ) :
    truthy o = true ↔ ∃ x, o = some x ∧ x ≠ 0 := by
  cases o with
  | none => simp [truthy]
  | some x => simp [truthy]

/-- When the coordinate filter keeps at least one island, `create_map`
produces the artifact with the average center, the marker list mapped
over the filtered islands, and the configured output file. -/
theorem createMap_eq_some (islands : List RecIslands.Island) (file : String)
    (h : RecIslands.resolvedIslands islands ≠ []) :
    RecIslands.createMap islands file =
      some
        ⟨(((RecIslands.resolvedIslands islands).map
              (fun i => i.latitude.getD 0)).sum /
            ((RecIslands.resolvedIslands islands).length : ℚ),
          ((RecIslands.resolvedIslands islands).map
              (fun i => i.longitude.getD 0)).sum /
            ((RecIslands.resolvedIslands islands).length : ℚ)),
         (RecIslands.resolvedIslands islands).map RecIslands.mkMarker,
         file⟩ := by
  unfold RecIslands.createMap
  cases hcase : RecIslands.resolvedIslands islands with
  | nil => exact absurd hcase h
  | cons a as => simp

/-- C4 (amended): for every catalog in which at least one island passes the
coordinate filter, the map center is the arithmetic mean of the latitudes
and, independently, of the longitudes of the filtered islands, each of
which carries a present, nonzero latitude and longitude. -/
theorem map_center_is_mean (islands : List RecIslands.Island)
    (file : String) (h : RecIslands.resolvedIslands islands ≠ []) :
    ∃ art, RecIslands.createMap islands file = some art
      ∧ art.center.1 =
          ((RecIslands.resolvedIslands islands).map
              (fun i => i.latitude.getD 0)).sum /
            ((RecIslands.resolvedIslands islands).length : ℚ)
      ∧ art.center.2 =
          ((RecIslands.resolvedIslands islands).map
              (fun i => i.longitude.getD 0)).sum /
            ((RecIslands.resolvedIslands islands).length : ℚ)
      ∧ ∀ i ∈ RecIslands.resolvedIslands islands,
          i.latitude = some (i.latitude.getD 0) ∧ i.latitude.getD 0 ≠ 0
          ∧ i.longitude = some (i.longitude.getD 0)
          ∧ i.longitude.getD 0 ≠ 0 := by
  refine ⟨_, createMap_eq_some islands file h, rfl, rfl, ?_⟩
  intro i hi
  unfold RecIslands.resolvedIslands at hi
  obtain ⟨-, hp⟩ := List.mem_filter.mp hi
  rw [Bool.and_eq_true] at hp
  obtain ⟨x, hx, hx0⟩ := (truthy_eq_true _).mp hp.1
  obtain ⟨y, hy, hy0⟩ := (truthy_eq_true _).mp hp.2
  rw [hx, hy]
  exact ⟨rfl, hx0, rfl, hy0⟩

/-- C4 (counterexample): the catalog holds two islands whose coordinates
are both set — one with latitude exactly 0 — yet the center is not the
mean of the two resolved latitudes: the zero-latitude island is dropped
by the truthiness filter, so the center equals the surviving island's
position. -/
theorem map_center_counterexample :
    islandZeroLat.latitude.isSome = true
    ∧ islandZeroLat.longitude.isSome = true
    ∧ islandResolved.latitude.isSome = true
    ∧ islandResolved.longitude.isSome = true
    ∧ (RecIslands.createMap [islandZeroLat, islandResolved]
        "islands.html").map RecIslands.MapArtifact.center = some (60, 25)
    ∧ ((0 : ℚ) + 60) / 2 ≠ 60 := by
  have hres : RecIslands.resolvedIslands [islandZeroLat, islandResolved] =
      [islandResolved] := rfl
  refine ⟨rfl, rfl, rfl, rfl, ?_, by norm_num⟩
  rw [createMap_eq_some [islandZeroLat, islandResolved] "islands.html"
    (by rw [hres]; exact List.cons_ne_nil _ _)]
  simp only [hres, Option.map_some']
  norm_num [islandResolved]

/-- Witness for C4 (amended): the catalog resolved to (60.0, 25.0) and
(60.2, 25.4) yields a map whose center is exactly (60.1, 25.2). -/
theorem map_center_is_mean_witness :
    (∃ art, RecIslands.createMap [islandD1, islandD2] "islands_map.html" =
        some art
      ∧ art.center.1 =
          ((RecIslands.resolvedIslands [islandD1, islandD2]).map
              (fun i => i.latitude.getD 0)).sum /
            ((RecIslands.resolvedIslands [islandD1, islandD2]).length : ℚ)
      ∧ art.center.2 =
          ((RecIslands.resolvedIslands [islandD1, islandD2]).map
              (fun i => i.longitude.getD 0)).sum /
            ((RecIslands.resolvedIslands [islandD1, islandD2]).length : ℚ)
      ∧ ∀ i ∈ RecIslands.resolvedIslands [islandD1, islandD2],
          i.latitude = some (i.latitude.getD 0) ∧ i.latitude.getD 0 ≠ 0
          ∧ i.longitude = some (i.longitude.getD 0)
          ∧ i.longitude.getD 0 ≠ 0)
    ∧ (RecIslands.createMap [islandD1, islandD2] "islands_map.html").map
        RecIslands.MapArtifact.center = some (60.1, 25.2) :=
  ⟨map_center_is_mean [islandD1, islandD2] "islands_map.html"
      (by
        unfold RecIslands.resolvedIslands islandD1 islandD2
        simp only [List.filter_cons, List.filter_nil, truthy,
          Bool.and_eq_true, bne_iff_ne]
        norm_num
        exact List.cons_ne_nil _ _),
   by
    have hres : RecIslands.resolvedIslands [islandD1, islandD2] =
        [islandD1, islandD2] := by
      unfold RecIslands.resolvedIslands islandD1 islandD2
      simp only [List.filter_cons, List.filter_nil, truthy,
        Bool.and_eq_true, bne_iff_ne]
      norm_num
    rw [createMap_eq_some [islandD1, islandD2] "islands_map.html"
      (by rw [hres]; exact List.cons_ne_nil _ _)]
    simp only [hres, Option.map_some']
    norm_num [islandD1, islandD2]⟩

/-- When the coordinate filter keeps no island, `create_map` hits the
early return and produces nothing. -/
theorem createMap_eq_none (islands : List RecIslands.Island)
    (file : String) (h : RecIslands.resolvedIslands islands = []) :
    RecIslands.createMap islands file = none := by
  unfold RecIslands.createMap
  rw [h]
  rfl

/-- C5: when no island passes the coordinate filter, `create_map` returns
without an artifact and writes no file. -/
theorem no_artifact_when_unresolved (islands : List RecIslands.Island)
    (file : String) (h : RecIslands.resolvedIslands islands = []) :
    RecIslands.createMap islands file = none
    ∧ RecIslands.filesWritten islands file = [] := by
  have h1 := createMap_eq_none islands file h
  exact ⟨h1, by simp [RecIslands.filesWritten, h1]⟩

/-- Witness for C5: a catalog whose single island never resolved produces
no artifact and no file write. -/
theorem no_artifact_when_unresolved_witness :
    RecIslands.createMap [islandA] "islands_map.html" = none
    ∧ RecIslands.filesWritten [islandA] "islands_map.html" = [] :=
  no_artifact_when_unresolved [islandA] "islands_map.html" rfl

/-- C7 (counterexample): a catalog of two islands with all four coordinate
fields set yields a map with only one marker, because the island whose
latitude is exactly 0 is dropped by the truthiness filter. -/
theorem marker_count_counterexample :
    islandZeroLat.latitude.isSome = true
    ∧ islandZeroLat.longitude.isSome = true
    ∧ islandResolved.latitude.isSome = true
    ∧ islandResolved.longitude.isSome = true
    ∧ (RecIslands.createMap [islandZeroLat, islandResolved]
        "islands.html").map (fun a => a.markers.length) = some 1 := by
  decide

/-- C7 (amended): the built map has exactly one marker per island passing
the coordinate filter (both coordinates present and nonzero), the markers
follow the catalog's insertion order (the filtered list is an in-order
sublist of the catalog), and each marker's label is its island's name. -/
theorem markers_match_filtered (islands : List RecIslands.Island)
    (file : String) (art : RecIslands.MapArtifact)
    (h : RecIslands.createMap islands file = some art) :
    art.markers =
      (RecIslands.resolvedIslands islands).map RecIslands.mkMarker
    ∧ art.markers.length = (RecIslands.resolvedIslands islands).length
    ∧ art.markers.map RecIslands.Marker.tooltip =
        (RecIslands.resolvedIslands islands).map RecIslands.Island.name
    ∧ (RecIslands.resolvedIslands islands).Sublist islands := by
  have hne : RecIslands.resolvedIslands islands ≠ [] := by
    intro hnil
    rw [createMap_eq_none islands file hnil] at h
    exact Option.noConfusion h
  rw [createMap_eq_some islands file hne] at h
  injection h with h
  subst h
  refine ⟨rfl, by simp, ?_, ?_⟩
  · simp only [List.map_map]
    exact List.map_congr_left fun a _ => rfl
  · unfold RecIslands.resolvedIslands
    exact List.filter_sublist islands

/-- Witness for C7 (amended): evaluated on a catalog with one unresolved
and one resolved island. -/
theorem markers_match_filtered_witness :
    mapArtAB.markers =
      (RecIslands.resolvedIslands [islandA, islandResolved]).map
        RecIslands.mkMarker
    ∧ mapArtAB.markers.length =
        (RecIslands.resolvedIslands [islandA, islandResolved]).length
    ∧ mapArtAB.markers.map RecIslands.Marker.tooltip =
        (RecIslands.resolvedIslands [islandA, islandResolved]).map
          RecIslands.Island.name
    ∧ (RecIslands.resolvedIslands [islandA, islandResolved]).Sublist
        [islandA, islandResolved] :=
  markers_match_filtered [islandA, islandResolved] "islands_map.html"
    mapArtAB (by rfl)

/-- The fixed-point format always consists of a (possibly signed) integer
part, a dot, and exactly six fraction digits. -/
theorem fmt6_shape (x : ℚ) :
    ∃ w f, RecIslands.fmt6 x = w ++ "." ++ f ∧ f.length = 6 := by
  refine ⟨(if round (x * 1000000) < 0 then "-" else "")
      ++ toString ((round (x * 1000000)).natAbs / 1000000),
    RecIslands.frac6 ((round (x * 1000000)).natAbs % 1000000), ?_, rfl⟩
  simp [RecIslands.fmt6, String.append_assoc]

/-- C8: the popup of the marker built for a resolved island interpolates
the island's name, city and notes, and its latitude and longitude
formatted to exactly six decimal places. -/
theorem popup_contains_fields (i : RecIslands.Island) (la lo : ℚ)
    (hla : i.latitude = some la) (hlo : i.longitude = some lo) :
    (∃ s1 s2 s3 s4 s5,
        (RecIslands.mkMarker i).popup =
          s1 ++ i.name ++ s2 ++ i.city ++ s3 ++ i.notes ++ s4
            ++ RecIslands.fmt6 la ++ ", " ++ RecIslands.fmt6 lo ++ s5)
    ∧ (∃ w f, RecIslands.fmt6 la = w ++ "." ++ f ∧ f.length = 6)
    ∧ (∃ w f, RecIslands.fmt6 lo = w ++ "." ++ f ∧ f.length = 6) := by
  refine ⟨⟨RecIslands.popupT1, RecIslands.popupT2, RecIslands.popupT3,
    RecIslands.popupT4, RecIslands.popupT5, ?_⟩,
    fmt6_shape la, fmt6_shape lo⟩
  simp [RecIslands.mkMarker, RecIslands.popupHtml, hla, hlo]

/-- Witness for C8: the popup of the island resolved to (60.2, 25.4). -/
theorem popup_contains_fields_witness :
    (∃ s1 s2 s3 s4 s5,
        (RecIslands.mkMarker islandD2).popup =
          s1 ++ islandD2.name ++ s2 ++ islandD2.city ++ s3
            ++ islandD2.notes ++ s4 ++ RecIslands.fmt6 60.2 ++ ", "
            ++ RecIslands.fmt6 25.4 ++ s5)
    ∧ (∃ w f, RecIslands.fmt6 60.2 = w ++ "." ++ f ∧ f.length = 6)
    ∧ (∃ w f, RecIslands.fmt6 25.4 = w ++ "." ++ f ∧ f.length = 6) :=
  popup_contains_fields islandD2 60.2 25.4 rfl rfl

/-- C10: a service match whose latitude or longitude parses to exactly 0
leaves the place unresolved: the resolution loop of `islands2.py` skips
it, and the coordinate filter of `create_map` in
`recreational_islands.py` excludes any island carrying such a value. -/
theorem zero_coordinate_unresolved (g : String → Option Match)
    (i : Islands2.IslandRec) (rest : List Islands2.IslandRec) (m : Match)
    (hg : g (Islands2.query i) = some m) (h0 : m.lat = 0 ∨ m.lon = 0) :
    Islands2.resolutionLoop g (i :: rest) = Islands2.resolutionLoop g rest
    ∧ ∀ (isl : RecIslands.Island) (islands : List RecIslands.Island),
        isl.latitude = some m.lat → isl.longitude = some m.lon →
        RecIslands.resolvedIslands (isl :: islands) =
          RecIslands.resolvedIslands islands := by
  have hg' : g (i.name ++ ", " ++ i.city) = some m := hg
  constructor
  · rcases h0 with h | h <;>
      simp [Islands2.resolutionLoop, Islands2.get_coordinates, hg',
        truthy, h]
  · intro isl islands hla hlo
    unfold RecIslands.resolvedIslands
    rw [List.filter_cons]
    rcases h0 with h | h <;> simp [truthy, hla, hlo, h]

/-- Witness for C10: a mock returning latitude exactly 0 for both catalog
entries — the first entry is skipped by the loop, and an island carrying
that value is excluded by the map filter. -/
theorem zero_coordinate_unresolved_witness :
    Islands2.resolutionLoop gZero [i2A, i2B] =
      Islands2.resolutionLoop gZero [i2B]
    ∧ RecIslands.resolvedIslands [islandZeroLat] =
        RecIslands.resolvedIslands [] :=
  ⟨(zero_coordinate_unresolved gZero i2A [i2B] ⟨0, 25⟩ rfl (Or.inl rfl)).1,
   (zero_coordinate_unresolved gZero i2A [i2B] ⟨0, 25⟩ rfl
      (Or.inl rfl)).2 islandZeroLat [] rfl rfl⟩
